import Mathlib

/-!
Shallow embedding of the wajs client library (event normalization and
command façade layer) for checking its natural-language specification.

The definitions translate the JavaScript source: `src/Client.js` (the
exposed page callbacks `onAddMessageEvent`, `onChangeMessageEvent`,
`onChangeMessageTypeEvent`, `onAppStateChangedEvent`, `qrChanged`, the
`sendMessage` remote dispatch, the membership-request operations) and
`src/Structures/Message.js` / `src/Structures/GroupChat.js`.
-/

/-- A JavaScript value, as far as the normalization code inspects one:
`undefined`, `null`, booleans, (integer) numbers, `NaN`, and strings. -/
inductive JSVal where
  | undef
  | null
  | bool (b : Bool)
  | num (n : Int)
  | nan
  | str (s : String)
  deriving DecidableEq, Repr

/-- JavaScript truthiness: `undefined`, `null`, `false`, `0`, `NaN` and the
empty string are falsy; every other value in our fragment is truthy. -/
def truthy : JSVal → Bool
  | .undef => false
  | .null => false
  | .bool b => b
  | .num n => n != 0
  | .nan => false
  | .str s => s != ""

/-- JavaScript `a && b`: yields `a` when `a` is falsy, otherwise `b`. -/
def jsAnd (a b : JSVal) : JSVal :=
  if truthy a then b else a

/-- JavaScript `a || b`: yields `a` when `a` is truthy, otherwise `b`. -/
def jsOr (a b : JSVal) : JSVal :=
  if truthy a then a else b

/-- Whether `pat` occurs at the start of `s` (on character lists). -/
def charsLeading : List Char → List Char → Bool
  | [], _ => true
  | _ :: _, [] => false
  | a :: as, b :: bs => a == b && charsLeading as bs

/-- Whether `pat` occurs as a contiguous run anywhere in `s`. -/
def charsContains (pat : List Char) : List Char → Bool
  | [] => charsLeading pat []
  | b :: bs => charsLeading pat (b :: bs) || charsContains pat bs

/-- JavaScript `/pat/.test(s)` for a literal pattern (and likewise
`s.includes(pat)`): substring containment. -/
def jsTest (pat s : String) : Bool :=
  charsContains pat.data s.data

/-- The composite message id of a raw snapshot (`msg.id`): the unique id
string, the from-me flag and the remote (chat) segment. -/
structure MsgId where
  id : String
  fromMe : Bool
  remote : String
  deriving DecidableEq, Repr

/-- The fields of a raw message mutation payload that the event
normalization callbacks in `src/Client.js` inspect. -/
structure RawMsg where
  type : String
  subtype : String
  id : MsgId
  author : String
  toField : String
  recipients : List String
  templateParams : List String
  deriving DecidableEq, Repr

/-- A typed domain event emitted on the client's event emitter, carrying
the raw payload it was built from (`new Message(this, msg)` keeps the
snapshot as the message's data). -/
inductive ClientEvent where
  | qrReceived (code : String)
  | messageCreate (m : RawMsg)
  | messageReceived (m : RawMsg)
  | groupJoin (m : RawMsg)
  | groupLeave (m : RawMsg)
  | groupAdminChanged (m : RawMsg)
  | groupMembershipRequest (m : RawMsg)
  | groupUpdate (m : RawMsg)
  | messageRevokeEveryone (m : RawMsg) (revokedMsg : Option RawMsg)
  | contactChanged (m : RawMsg) (oldId : Option String) (newId : Option String)
      (isContactFlag : Bool)
  | stateChanged (s : String)
  | disconnected (reason : String)
  deriving DecidableEq, Repr

/-- An observable action of a client handler: emitting an event,
scheduling the conflict takeover (`setTimeout(... takeover ...)`), or
tearing the session down (`this.destroy()`). -/
inductive ClientAction where
  | emit (e : ClientEvent)
  | scheduleTakeover
  | destroy
  deriving DecidableEq, Repr

/-- `onAddMessageEvent` (src/Client.js lines 94-157): a `gp2` payload is
routed to one group event by subtype; any other payload emits
`message_create`, then — unless `msg.id.fromMe` — `message` (received). -/
def onAddMessageEvent (msg : RawMsg) : List ClientEvent :=
  if msg.type = "gp2" then
    if ["add", "invite", "linked_group_join"].contains msg.subtype then
      [.groupJoin msg]
    else if msg.subtype = "remove" || msg.subtype = "leave" then
      [.groupLeave msg]
    else if msg.subtype = "promote" || msg.subtype = "demote" then
      [.groupAdminChanged msg]
    else if msg.subtype = "created_membership_requests" then
      [.groupMembershipRequest msg]
    else
      [.groupUpdate msg]
  else
    [.messageCreate msg] ++ (if msg.id.fromMe then [] else [.messageReceived msg])

/-- `onChangeMessageTypeEvent` (src/Client.js lines 160-179): on a payload
of type `revoked`, emit `message_revoke_everyone`; the second argument is
the cached `last_message` snapshot when its id matches, else `undefined`. -/
def onChangeMessageTypeEvent (lastMessage : Option RawMsg) (msg : RawMsg) :
    List ClientEvent :=
  if msg.type = "revoked" then
    let revokedMsg : Option RawMsg :=
      match lastMessage with
      | some lm => if msg.id.id = lm.id.id then some lm else none
      | none => none
    [.messageRevokeEveryone msg revokedMsg]
  else []

/-- `onChangeMessageEvent` (src/Client.js lines 181-217): every mutation
whose type is not `revoked` overwrites the `last_message` slot; a
`gp2`/`modify` or `notification_template`/`change_number` payload emits
`contact_changed` with the derived old/new ids. Returns the new slot
content and the emitted events. -/
def onChangeMessageEvent (lastMessage : Option RawMsg) (msg : RawMsg) :
    Option RawMsg × List ClientEvent :=
  let lastMessage2 := if msg.type ≠ "revoked" then some msg else lastMessage
  let isParticipant : Bool := msg.type == "gp2" && msg.subtype == "modify"
  let isContactFlag : Bool :=
    msg.type == "notification_template" && msg.subtype == "change_number"
  let evs :=
    if isParticipant || isContactFlag then
      let newId : Option String :=
        if isParticipant then msg.recipients.head? else some msg.toField
      let oldId : Option String :=
        if isParticipant then some msg.author
        else msg.templateParams.find? (fun i => i != msg.toField)
      [ClientEvent.contactChanged msg oldId newId isContactFlag]
    else []
  (lastMessage2, evs)

/-- The connection-state allow-list built by `onAppStateChangedEvent`
(src/Client.js line 269, extended at line 272 when `takeoverOnConflict`
is set). The state tokens come from `WAState` in `Util/Constant.js`;
only their identity matters here. -/
def acceptedStates (takeoverOnConflict : Bool) : List String :=
  ["CONNECTED", "OPENING", "PAIRING", "TIMEOUT"]
    ++ (if takeoverOnConflict then ["CONFLICT"] else [])

/-- `onAppStateChangedEvent` (src/Client.js lines 260-290): always emit
`change_state`; when `takeoverOnConflict` is set and the state is
`CONFLICT`, schedule the takeover; when the state is outside the
allow-list, emit `disconnected` and then call `destroy`. -/
def onAppStateChangedEvent (takeoverOnConflict : Bool) (state : String) :
    List ClientAction :=
  [ClientAction.emit (.stateChanged state)]
    ++ (if takeoverOnConflict = true ∧ state = "CONFLICT" then
          [ClientAction.scheduleTakeover]
        else [])
    ++ (if state ∈ acceptedStates takeoverOnConflict then []
        else [ClientAction.emit (.disconnected state), ClientAction.destroy])

/-- A JavaScript numeric variable as the `qrChanged` callback uses it:
it starts out `undefined` (`let qrRetries;`) and may become `NaN`. -/
inductive JSNum where
  | undef
  | nan
  | num (n : Int)
  deriving DecidableEq, Repr

/-- JavaScript `x++` effect on the stored value: `undefined` and `NaN`
both become `NaN` (ToNumber(undefined) = NaN, NaN + 1 = NaN); a number is
incremented. -/
def jsIncrement : JSNum → JSNum
  | .undef => .nan
  | .nan => .nan
  | .num n => .num (n + 1)

/-- JavaScript `x > y` for our numeric variable against an integer:
comparisons involving `undefined` or `NaN` are always false. -/
def jsGreater : JSNum → Int → Bool
  | .undef, _ => false
  | .nan, _ => false
  | .num a, b => a > b

/-- One invocation of the `qrChanged` callback (src/Client.js lines
76-85): emit the `qr` event; if `qrMaxRetries > 0`, increment `qrRetries`
and, if it exceeds `qrMaxRetries`, emit `disconnected` with the
max-retries reason and call `destroy`. Returns the new `qrRetries` value
and the actions taken. -/
def qrChangedStep (qrMaxRetries : Int) (qrRetries : JSNum) (qr : String) :
    JSNum × List ClientAction :=
  let emitted := [ClientAction.emit (.qrReceived qr)]
  if qrMaxRetries > 0 then
    let qrRetries2 := jsIncrement qrRetries
    if jsGreater qrRetries2 qrMaxRetries then
      (qrRetries2,
        emitted ++ [ClientAction.emit (.disconnected "Max qrcode retries reached"),
                    ClientAction.destroy])
    else (qrRetries2, emitted)
  else (qrRetries, emitted)

/-- A sequence of `qrChanged` invocations (one per received code),
threading the `qrRetries` variable and collecting all actions. -/
def runQrChanged (qrMaxRetries : Int) (qrRetries : JSNum) :
    List String → JSNum × List ClientAction
  | [] => (qrRetries, [])
  | code :: rest =>
    let step := qrChangedStep qrMaxRetries qrRetries code
    let tail := runQrChanged qrMaxRetries step.fst rest
    (tail.fst, step.snd ++ tail.snd)

/-- The raw snapshot fields that `Message._patch`
(src/Structures/Message.js) reads for the media and status flags. -/
structure MsgData where
  mediaKey : JSVal
  directPath : JSVal
  isStatusV3 : JSVal
  idRemote : String
  deriving DecidableEq, Repr

/-- `Message.hasMedia` (src/Structures/Message.js line 47):
`Boolean(data.mediaKey && data.directPath)`. -/
def hasMedia (d : MsgData) : Bool :=
  truthy (jsAnd d.mediaKey d.directPath)

/-- `Message.isStatus` (src/Structures/Message.js line 111):
`data.isStatusV3 || data.id.remote === 'status@broadcast'` (the raw
JavaScript value of that expression). -/
def isStatusVal (d : MsgData) : JSVal :=
  jsOr d.isStatusV3 (.bool (d.idRemote == "status@broadcast"))

/-- The spec's notion of a field being "present" in a snapshot, following
the claim's wording "present/absent/null": any value other than
`undefined` (absent) and `null`. Stated from the spec for comparison with
the source-derived `hasMedia`. -/
def specPresent (v : JSVal) : Bool :=
  v != JSVal.undef && v != JSVal.null

/-- A raw snapshot as a field map (a JavaScript object): association list
from field names to values. -/
abbrev Snapshot := List (String × JSVal)

/-- The poll-creation message type tag compared against `this.type` in
`Message._patch` (src/Structures/Message.js line 273). Modelled from the
spec: `Util/Constant.js` (`MessageTypes`) is not part of the provided
sources; the spec's data model enumerates "poll creation" among the
message types. -/
def pollCreationType : String := "poll_creation"

/-- The five fields `Message._patch` deletes from `this._data` for
poll-creation messages (src/Structures/Message.js lines 280-284). -/
def pollDataFields : List String :=
  ["pollName", "pollOptions", "pollSelectableOptionsCount",
   "pollInvalidated", "isSentCagPollCreation"]

/-- The value of `message.rawData` after `new Message(client, data)`:
`_patch` stores the snapshot as `_data` unchanged, except that for a
poll-creation snapshot the five poll fields are deleted from it
(src/Structures/Message.js lines 273-285 and 316-318). -/
def messageRawData (data : Snapshot) : Snapshot :=
  if data.lookup "type" = some (.str pollCreationType) then
    data.filter (fun kv => !(pollDataFields.contains kv.1))
  else data

/-- The `message` argument marshalled into the `sendMessage` page
function: after the content-normalization chain it is either a string or
an object carrying a mimetype and base64 data. -/
inductive SendContent where
  | str (s : String)
  | media (mimetype : String) (dataB64 : String)
  deriving DecidableEq, Repr

/-- A remote entry point invoked by the `sendMessage` page function. -/
inductive RemoteAction where
  | sendTextStatus (text : String)
  | sendImageStatus (dataUri : String)
  | sendVideoStatus (dataUri : String)
  | createWid (chatId : String)
  | findChat (chatId : String)
  | markSeen (chatId : String)
  | submit (chatId : String) (message : SendContent)
  deriving DecidableEq, Repr

/-- The `sendMessage` page function (src/Client.js lines 579-605): for the
`status@broadcast` pseudo-chat, dispatch on the content — string via
`sendTextStatus`, image-mimetype media via `sendImageStatus`,
video-mimetype media via `sendVideoStatus`, anything else throws; for an
ordinary chat, create the wid, find the chat, optionally mark it seen and
submit. Returns the ordered remote calls, or the thrown error. -/
def sendMessageEval (chatId : String) (message : SendContent)
    (sendSeen : Bool) : Except String (List RemoteAction) :=
  if chatId = "status@broadcast" then
    match message with
    | .str s => .ok [.sendTextStatus s]
    | .media mimetype dataB64 =>
      if jsTest "image" mimetype then
        .ok [.sendImageStatus ("data:" ++ mimetype ++ ";base64," ++ dataB64)]
      else if jsTest "video" mimetype then
        .ok [.sendVideoStatus ("data:" ++ mimetype ++ ";base64," ++ dataB64)]
      else
        .error "Invalid type for status broadcast"
  else
    .ok ([RemoteAction.createWid chatId, RemoteAction.findChat chatId]
      ++ (if sendSeen then [RemoteAction.markSeen chatId] else [])
      ++ [RemoteAction.submit chatId message])

/-- The per-participant rpc result of `window.WPP.group.addParticipants`
for one id, as `GroupChat.addParticipants` reads it. -/
structure RpcResult where
  code : Int
  message : String
  inviteCode : String
  inviteCodeExp : Int
  isInviteV4Sent : Option Bool := none
  deriving DecidableEq, Repr

/-- The remote environment `GroupChat.addParticipants` runs against: the
rpc result per participant id, whether the participant's user chat is
found, and whether the group-invite message send reports OK. -/
structure AddEnv where
  rpc : String → RpcResult
  findUserChat : String → Bool
  inviteSendOk : String → Bool

/-- The options object of `GroupChat.addParticipants`: the implementation
destructures only `autoSendInviteV4` and `comment` (GroupChat.js line 80);
the documented `sleep` option is carried but never read. -/
structure AddOptions where
  sleep : Option (Sum Int (Int × Int)) := none
  autoSendInviteV4 : Bool := true
  comment : String := ""

/-- One iteration body of the `addParticipants` loop (GroupChat.js lines
84-113): perform the rpc add for the single participant; on a 403 with
`autoSendInviteV4`, attempt the inviteV4 fallback and record its success
flag on the result. -/
def addParticipantsAttempt (env : AddEnv) (autoSendInviteV4 : Bool)
    (participant : String) : RpcResult :=
  let rpcResult := env.rpc participant
  if autoSendInviteV4 && rpcResult.code == 403 then
    let isInviteV4Sent :=
      jsTest "ParticipantRequestCodeCanBeSent" rpcResult.message
        && env.findUserChat participant
        && env.inviteSendOk participant
    { rpcResult with isInviteV4Sent := some isInviteV4Sent }
  else rpcResult

/-- `GroupChat.addParticipants` (GroupChat.js lines 78-116): the loop body
ends in `return rpcResult`, so the first iteration returns; the remaining
ids are never visited, and an empty input falls through returning
`undefined`. First component: the participants actually attempted;
second: the JavaScript return value. -/
def addParticipantsEval (env : AddEnv) (options : AddOptions) :
    List String → List String × Option RpcResult
  | [] => ([], none)
  | participant :: _rest =>
    ([participant],
     some (addParticipantsAttempt env options.autoSendInviteV4 participant))

/-- The options object of the membership-request operations
(src/Client.js lines 1216-1234): the implementation destructures only
`requesterIds`; the documented `sleep` option is carried but never read. -/
structure MembershipOptions where
  requesterIds : Option (List String) := none
  sleep : Option (Sum Int (Int × Int)) := none
  deriving DecidableEq, Repr

/-- A remote call made by the membership-request operations; `sleepFor`
would be a delay between items (none is ever produced). -/
inductive GroupAction where
  | approveCall (groupId : String) (requesterIds : Option (List String))
  | rejectCall (groupId : String) (requesterIds : Option (List String))
  | sleepFor (ms : Int)
  deriving DecidableEq, Repr

/-- `Client.approveGroupMembershipRequests` (src/Client.js lines
1216-1221): a single delegation to `window.WPP.group.approve` with the
destructured `requesterIds`. -/
def approveMembershipEval (groupId : String) (options : MembershipOptions) :
    List GroupAction :=
  [GroupAction.approveCall groupId options.requesterIds]

/-- `Client.rejectGroupMembershipRequests` (src/Client.js lines
1229-1234): a single delegation to `window.WPP.group.reject` with the
destructured `requesterIds`. -/
def rejectMembershipEval (groupId : String) (options : MembershipOptions) :
    List GroupAction :=
  [GroupAction.rejectCall groupId options.requesterIds]

/-- A concrete received (not from-me) chat message payload. -/
def sampleChatMsg : RawMsg :=
  { type := "chat", subtype := "",
    id := { id := "A1B2", fromMe := false, remote := "123@c.us" },
    author := "", toField := "", recipients := [], templateParams := [] }

/-- A concrete revoked-message payload with the same unique id as
`sampleChatMsg`. -/
def sampleRevokedMsg : RawMsg :=
  { sampleChatMsg with type := "revoked" }

/-- A concrete participant-renumbering payload (`gp2` / `modify`). -/
def sampleModifyMsg : RawMsg :=
  { type := "gp2", subtype := "modify",
    id := { id := "M1", fromMe := false, remote := "456@g.us" },
    author := "old@c.us", toField := "",
    recipients := ["new@c.us"], templateParams := [] }

/-- A concrete contact-renumbering payload
(`notification_template` / `change_number`). -/
def sampleChangeNumberMsg : RawMsg :=
  { type := "notification_template", subtype := "change_number",
    id := { id := "N1", fromMe := false, remote := "new@c.us" },
    author := "", toField := "new@c.us",
    recipients := [], templateParams := ["new@c.us", "old@c.us"] }

/-- Claim C5: for every newly observed non-group-notification message,
`message_create` is emitted exactly once; `message` (received) is emitted
iff the payload's `id.fromMe` is false; and the creation event precedes
the reception event for the same message. -/
theorem onAddMessage_create_then_received (msg : RawMsg)
    (h : msg.type ≠ "gp2") :
    (onAddMessageEvent msg).count (ClientEvent.messageCreate msg) = 1
    ∧ ((ClientEvent.messageReceived msg ∈ onAddMessageEvent msg)
        ↔ msg.id.fromMe = false)
    ∧ (msg.id.fromMe = false →
        onAddMessageEvent msg
          = [ClientEvent.messageCreate msg, ClientEvent.messageReceived msg])
    ∧ (msg.id.fromMe = true →
        onAddMessageEvent msg = [ClientEvent.messageCreate msg]) := by
  unfold onAddMessageEvent
  rw [if_neg h]
  cases hf : msg.id.fromMe <;> simp [hf, List.count_cons]

/-- Witness for claim C5 at a concrete received message. -/
theorem onAddMessage_create_then_received_witness :
    sampleChatMsg.type ≠ "gp2"
    ∧ sampleChatMsg.id.fromMe = false
    ∧ onAddMessageEvent sampleChatMsg
        = [ClientEvent.messageCreate sampleChatMsg,
           ClientEvent.messageReceived sampleChatMsg] :=
  ⟨by decide, rfl,
   (onAddMessage_create_then_received sampleChatMsg (by decide)).2.2.1 rfl⟩

/-- Claim C4: the state-change handler always emits `change_state`;
allow-list states never trigger teardown; any state outside the allow-list
yields exactly one `disconnected` event, emitted before `destroy`. -/
theorem onAppStateChanged_gating (toc : Bool) (state : String) :
    ClientAction.emit (ClientEvent.stateChanged state)
      ∈ onAppStateChangedEvent toc state
    ∧ (state ∈ acceptedStates toc →
        ClientAction.destroy ∉ onAppStateChangedEvent toc state)
    ∧ (state ∉ acceptedStates toc →
        (onAppStateChangedEvent toc state).count
            (ClientAction.emit (ClientEvent.disconnected state)) = 1
        ∧ ∃ i j : Nat, i < j
            ∧ (onAppStateChangedEvent toc state).get? i
                = some (ClientAction.emit (ClientEvent.disconnected state))
            ∧ (onAppStateChangedEvent toc state).get? j
                = some ClientAction.destroy) := by
  refine ⟨?_, ?_, ?_⟩
  · simp [onAppStateChangedEvent]
  · intro h
    simp only [onAppStateChangedEvent, if_pos h]
    split <;> simp
  · intro h
    have hconf : ¬(toc = true ∧ state = "CONFLICT") := by
      rintro ⟨ht, hc⟩
      exact h (by simp [acceptedStates, ht, hc])
    simp only [onAppStateChangedEvent, if_neg h, if_neg hconf]
    refine ⟨by simp [List.count_cons], 1, 2, by decide, rfl, rfl⟩

/-- Witness for claim C4 at the `UNPAIRED` state (outside the
allow-list) without takeover. -/
theorem onAppStateChanged_gating_witness :
    ("CONNECTED" : String) ∈ acceptedStates false
    ∧ ClientAction.destroy ∉ onAppStateChangedEvent false "CONNECTED"
    ∧ ("UNPAIRED" : String) ∉ acceptedStates false
    ∧ (onAppStateChangedEvent false "UNPAIRED").count
        (ClientAction.emit (ClientEvent.disconnected "UNPAIRED")) = 1 :=
  ⟨by decide, (onAppStateChanged_gating false "CONNECTED").2.1 (by decide),
   by decide, ((onAppStateChanged_gating false "UNPAIRED").2.2 (by decide)).1⟩

/-- Helper for claim C10: one `qrChanged` invocation with a positive
retry limit, starting from the uninitialized (`undefined`) or already
`NaN` counter, makes the counter `NaN` and only emits the `qr` event. -/
theorem qrStep_stuck (maxR : Int) (st : JSNum) (code : String)
    (hmax : 0 < maxR) (hst : st = JSNum.undef ∨ st = JSNum.nan) :
    qrChangedStep maxR st code
      = (JSNum.nan, [ClientAction.emit (.qrReceived code)]) := by
  rcases hst with h | h <;> subst h <;>
    simp [qrChangedStep, jsIncrement, jsGreater, hmax]

/-- Claim C10: `qrRetries` is declared without an initial value, so with
`qrMaxRetries > 0` every `qrChanged` invocation emits exactly one `qr`
event and the max-retries disconnect/destroy branch is unreachable, for
any sequence of received codes. -/
theorem qrChanged_max_retries_unreachable (maxR : Int) (hmax : 0 < maxR)
    (codes : List String) :
    (runQrChanged maxR JSNum.undef codes).snd
      = codes.map (fun c => ClientAction.emit (.qrReceived c)) := by
  have key : ∀ (cs : List String) (st : JSNum),
      st = JSNum.undef ∨ st = JSNum.nan →
      (runQrChanged maxR st cs).snd
        = cs.map (fun c => ClientAction.emit (.qrReceived c)) := by
    intro cs
    induction cs with
    | nil => intro st _; rfl
    | cons c rest ih =>
      intro st hst
      simp [runQrChanged, qrStep_stuck maxR st c hmax hst,
            ih JSNum.nan (Or.inr rfl)]
  exact key codes JSNum.undef (Or.inl rfl)

/-- Witness for claim C10: four refreshes with `qrMaxRetries = 2` emit
four `qr` events and nothing else. -/
theorem qrChanged_max_retries_unreachable_witness :
    (0 : Int) < 2
    ∧ (runQrChanged 2 JSNum.undef ["q1", "q2", "q3", "q4"]).snd
        = [ClientAction.emit (.qrReceived "q1"),
           ClientAction.emit (.qrReceived "q2"),
           ClientAction.emit (.qrReceived "q3"),
           ClientAction.emit (.qrReceived "q4")] :=
  ⟨by decide, by
    rw [qrChanged_max_retries_unreachable 2 (by decide) ["q1", "q2", "q3", "q4"]]
    rfl⟩

/-- Claim C2: on a mutation to type `revoked`, the revoke-everyone event
carries the cached `last_message` snapshot exactly when that slot holds a
message with the same unique id (and never an unrelated message);
otherwise the second argument is omitted; and every non-revoked mutation
overwrites the slot. -/
theorem revocation_correlation (lastMessage : Option RawMsg) (msg : RawMsg) :
    (msg.type ≠ "revoked" →
      (onChangeMessageEvent lastMessage msg).fst = some msg)
    ∧ (msg.type = "revoked" →
      (onChangeMessageEvent lastMessage msg).fst = lastMessage)
    ∧ (msg.type = "revoked" → ∀ lm, lastMessage = some lm →
        lm.id.id = msg.id.id →
        onChangeMessageTypeEvent lastMessage msg
          = [ClientEvent.messageRevokeEveryone msg (some lm)])
    ∧ (msg.type = "revoked" → ∀ lm, lastMessage = some lm →
        lm.id.id ≠ msg.id.id →
        onChangeMessageTypeEvent lastMessage msg
          = [ClientEvent.messageRevokeEveryone msg none])
    ∧ (msg.type = "revoked" → lastMessage = none →
        onChangeMessageTypeEvent lastMessage msg
          = [ClientEvent.messageRevokeEveryone msg none])
    ∧ (∀ prev, ClientEvent.messageRevokeEveryone msg (some prev)
          ∈ onChangeMessageTypeEvent lastMessage msg →
        lastMessage = some prev ∧ prev.id.id = msg.id.id) := by
  refine ⟨?_, ?_, ?_, ?_, ?_, ?_⟩
  · intro h; simp [onChangeMessageEvent, h]
  · intro h; simp [onChangeMessageEvent, h]
  · intro h lm hlm hid
    subst hlm
    simp [onChangeMessageTypeEvent, h, hid.symm]
  · intro h lm hlm hid
    subst hlm
    simp [onChangeMessageTypeEvent, h, Ne.symm hid]
  · intro h hlm
    subst hlm
    simp [onChangeMessageTypeEvent, h]
  · intro prev hmem
    unfold onChangeMessageTypeEvent at hmem
    by_cases ht : msg.type = "revoked"
    · rw [if_pos ht] at hmem
      cases hlm : lastMessage with
      | none => rw [hlm] at hmem; simp at hmem
      | some lm =>
        rw [hlm] at hmem
        by_cases hid : msg.id.id = lm.id.id
        · simp [hid] at hmem
          exact ⟨by rw [hmem], by rw [hmem, hid]⟩
        · simp [hid] at hmem
    · rw [if_neg ht] at hmem; simp at hmem

/-- Witness for claim C2: a revocation whose id matches the cached
message carries that snapshot; the cached message had been stored by a
non-revoked mutation. -/
theorem revocation_correlation_witness :
    sampleChatMsg.type ≠ "revoked"
    ∧ (onChangeMessageEvent none sampleChatMsg).fst = some sampleChatMsg
    ∧ sampleRevokedMsg.type = "revoked"
    ∧ sampleChatMsg.id.id = sampleRevokedMsg.id.id
    ∧ onChangeMessageTypeEvent (some sampleChatMsg) sampleRevokedMsg
        = [ClientEvent.messageRevokeEveryone sampleRevokedMsg
            (some sampleChatMsg)] :=
  ⟨by decide,
   (revocation_correlation none sampleChatMsg).1 (by decide),
   rfl, rfl,
   (revocation_correlation (some sampleChatMsg) sampleRevokedMsg).2.2.1
     rfl sampleChatMsg rfl rfl⟩

/-- Claim C3: a `gp2`/`modify` payload emits `contact_changed` with
oldId = author, newId = first recipient, isContact = false; a
`notification_template`/`change_number` payload emits it with
newId = the `to` field, oldId = the template parameter different from
newId, isContact = true; no other payload emits `contact_changed`. -/
theorem contact_changed_derivation (lastMessage : Option RawMsg)
    (msg : RawMsg) :
    (msg.type = "gp2" → msg.subtype = "modify" →
      (onChangeMessageEvent lastMessage msg).snd
        = [ClientEvent.contactChanged msg (some msg.author)
            msg.recipients.head? false])
    ∧ (msg.type = "notification_template" → msg.subtype = "change_number" →
      (onChangeMessageEvent lastMessage msg).snd
        = [ClientEvent.contactChanged msg
            (msg.templateParams.find? (fun i => i != msg.toField))
            (some msg.toField) true])
    ∧ (¬(msg.type = "gp2" ∧ msg.subtype = "modify") →
       ¬(msg.type = "notification_template" ∧ msg.subtype = "change_number") →
      (onChangeMessageEvent lastMessage msg).snd = []) := by
  have egp : ("gp2" == "notification_template") = false := by decide
  have ent : ("notification_template" == "gp2") = false := by decide
  refine ⟨?_, ?_, ?_⟩
  · intro h1 h2
    simp [onChangeMessageEvent, h1, h2, egp]
  · intro h1 h2
    simp [onChangeMessageEvent, h1, h2, ent]
  · intro hP hC
    have h1 : (msg.type == "gp2" && msg.subtype == "modify") = false := by
      by_cases ha : msg.type = "gp2"
      · by_cases hb : msg.subtype = "modify"
        · exact absurd ⟨ha, hb⟩ hP
        · simp [hb]
      · simp [ha]
    have h2 : (msg.type == "notification_template"
        && msg.subtype == "change_number") = false := by
      by_cases ha : msg.type = "notification_template"
      · by_cases hb : msg.subtype = "change_number"
        · exact absurd ⟨ha, hb⟩ hC
        · simp [hb]
      · simp [ha]
    simp [onChangeMessageEvent, h1, h2]

/-- Witness for claim C3 at concrete participant- and
contact-renumbering payloads. -/
theorem contact_changed_derivation_witness :
    sampleModifyMsg.type = "gp2" ∧ sampleModifyMsg.subtype = "modify"
    ∧ (onChangeMessageEvent none sampleModifyMsg).snd
        = [ClientEvent.contactChanged sampleModifyMsg
            (some "old@c.us") (some "new@c.us") false]
    ∧ sampleChangeNumberMsg.type = "notification_template"
    ∧ sampleChangeNumberMsg.subtype = "change_number"
    ∧ (onChangeMessageEvent none sampleChangeNumberMsg).snd
        = [ClientEvent.contactChanged sampleChangeNumberMsg
            (some "old@c.us") (some "new@c.us") true] :=
  ⟨rfl, rfl,
   by rw [(contact_changed_derivation none sampleModifyMsg).1 rfl rfl]; rfl,
   rfl, rfl,
   by rw [(contact_changed_derivation none sampleChangeNumberMsg).2.1 rfl rfl]
      rfl⟩

/-- Counterexample to claim C7 as stated: with a present-but-empty
`mediaKey` (an empty string is neither absent nor null) and a present
`directPath`, `hasMedia` is false, so "hasMedia iff both present" fails. -/
theorem hasMedia_present_counterexample :
    ¬ (hasMedia { mediaKey := JSVal.str "", directPath := JSVal.str "3/pth",
                  isStatusV3 := JSVal.bool false, idRemote := "123@c.us" } = true
        ↔ (specPresent (JSVal.str "") = true
            ∧ specPresent (JSVal.str "3/pth") = true)) := by
  decide

/-- Claim C7 as amended: `hasMedia` is true iff both `mediaKey` and
`directPath` are present with truthy values (non-null, non-undefined and
non-empty), and the status flag is truthy iff the explicit `isStatusV3`
flag is truthy or the id's remote segment is the status broadcast
channel. -/
theorem hasMedia_isStatus_characterization (d : MsgData) :
    (hasMedia d = true
      ↔ (truthy d.mediaKey = true ∧ truthy d.directPath = true))
    ∧ (truthy (isStatusVal d) = true
      ↔ (truthy d.isStatusV3 = true ∨ d.idRemote = "status@broadcast")) := by
  constructor
  · unfold hasMedia jsAnd
    cases h : truthy d.mediaKey <;> simp [h]
  · unfold isStatusVal jsOr
    cases h : truthy d.isStatusV3
    · simp [h, truthy]
    · simp [h]

/-- Helper: filtering an association list by a key predicate does not
change lookups of keys the predicate keeps. -/
theorem lookup_filter_keep (p : String → Bool) (k : String)
    (hk : p k = true) (l : Snapshot) :
    (l.filter (fun kv => p kv.1)).lookup k = l.lookup k := by
  induction l with
  | nil => rfl
  | cons kv t ih =>
    obtain ⟨a, b⟩ := kv
    by_cases hak : k = a
    · subst hak
      simp [List.filter_cons, hk, List.lookup]
    · have hba : (k == a) = false := beq_eq_false_iff_ne.mpr hak
      cases hpa : p a <;>
        simp [List.filter_cons, hpa, List.lookup, hba, ih]

/-- Counterexample to claim C8 as stated: a poll-creation snapshot is not
reproduced unchanged by the raw-data accessor — the `pollName` field is
deleted from the raw data. -/
theorem rawData_roundtrip_counterexample :
    messageRawData
        [("type", JSVal.str "poll_creation"), ("pollName", JSVal.str "lunch")]
      ≠ [("type", JSVal.str "poll_creation"), ("pollName", JSVal.str "lunch")]
    ∧ (messageRawData
        [("type", JSVal.str "poll_creation"),
         ("pollName", JSVal.str "lunch")]).lookup "pollName" = none := by
  decide

/-- Claim C8 as amended: the raw-data accessor reproduces the snapshot
unchanged for every non-poll-creation message; for poll-creation
messages only the five poll fields are removed, and every other field is
still reproduced unchanged. -/
theorem rawData_roundtrip (data : Snapshot) :
    (data.lookup "type" ≠ some (JSVal.str pollCreationType) →
      messageRawData data = data)
    ∧ (∀ k : String, pollDataFields.contains k = false →
        (messageRawData data).lookup k = data.lookup k) := by
  constructor
  · intro h
    unfold messageRawData
    rw [if_neg h]
  · intro k hk
    unfold messageRawData
    split
    · have h := lookup_filter_keep
        (fun s => !(pollDataFields.contains s)) k (by simpa using hk) data
      simpa using h
    · rfl

/-- Witness for (amended) claim C8: a chat snapshot round-trips
unchanged, and an unrelated field of a poll-creation snapshot is
preserved. -/
theorem rawData_roundtrip_witness :
    ([("type", JSVal.str "chat"), ("body", JSVal.str "hi")]
        : Snapshot).lookup "type" ≠ some (JSVal.str pollCreationType)
    ∧ messageRawData [("type", JSVal.str "chat"), ("body", JSVal.str "hi")]
        = [("type", JSVal.str "chat"), ("body", JSVal.str "hi")]
    ∧ pollDataFields.contains "body" = false
    ∧ (messageRawData
        [("type", JSVal.str "poll_creation"),
         ("body", JSVal.str "hi")]).lookup "body"
      = ([("type", JSVal.str "poll_creation"),
          ("body", JSVal.str "hi")] : Snapshot).lookup "body" :=
  ⟨by decide,
   (rawData_roundtrip [("type", JSVal.str "chat"),
      ("body", JSVal.str "hi")]).1 (by decide),
   by decide,
   (rawData_roundtrip [("type", JSVal.str "poll_creation"),
      ("body", JSVal.str "hi")]).2 "body" (by decide)⟩

/-- Claim C9: for the status-broadcast pseudo-chat, string content goes
through the text-status entry point, media with an image mimetype through
the image-status entry point, media with a (non-image) video mimetype
through the video-status entry point, and any other content is a thrown
failure; for an ordinary chat, the chat handle is resolved by id and,
when requested, the chat is marked seen before submission. -/
theorem sendMessage_status_dispatch (chatId : String)
    (message : SendContent) (sendSeen : Bool) :
    (chatId = "status@broadcast" →
      (∀ s, message = SendContent.str s →
        sendMessageEval chatId message sendSeen
          = Except.ok [RemoteAction.sendTextStatus s])
      ∧ (∀ mt d, message = SendContent.media mt d →
          jsTest "image" mt = true →
          sendMessageEval chatId message sendSeen
            = Except.ok [RemoteAction.sendImageStatus
                ("data:" ++ mt ++ ";base64," ++ d)])
      ∧ (∀ mt d, message = SendContent.media mt d →
          jsTest "image" mt = false → jsTest "video" mt = true →
          sendMessageEval chatId message sendSeen
            = Except.ok [RemoteAction.sendVideoStatus
                ("data:" ++ mt ++ ";base64," ++ d)])
      ∧ (∀ mt d, message = SendContent.media mt d →
          jsTest "image" mt = false → jsTest "video" mt = false →
          sendMessageEval chatId message sendSeen
            = Except.error "Invalid type for status broadcast"))
    ∧ (chatId ≠ "status@broadcast" →
        ∃ acts, sendMessageEval chatId message sendSeen = Except.ok acts
          ∧ RemoteAction.findChat chatId ∈ acts
          ∧ (sendSeen = true →
              ∃ i j : Nat, i < j
                ∧ acts.get? i = some (RemoteAction.markSeen chatId)
                ∧ acts.get? j
                    = some (RemoteAction.submit chatId message))) := by
  constructor
  · intro hc
    refine ⟨?_, ?_, ?_, ?_⟩
    · intro s hm; subst hm; simp [sendMessageEval, hc]
    · intro mt d hm himg; subst hm; simp [sendMessageEval, hc, himg]
    · intro mt d hm himg hvid; subst hm
      simp [sendMessageEval, hc, himg, hvid]
    · intro mt d hm himg hvid; subst hm
      simp [sendMessageEval, hc, himg, hvid]
  · intro hc
    cases hs : sendSeen
    · exact ⟨[RemoteAction.createWid chatId, RemoteAction.findChat chatId,
        RemoteAction.submit chatId message],
        by simp [sendMessageEval, hc], by simp,
        fun ht => absurd ht (by simp)⟩
    · refine ⟨[RemoteAction.createWid chatId, RemoteAction.findChat chatId,
        RemoteAction.markSeen chatId, RemoteAction.submit chatId message],
        by simp [sendMessageEval, hc], by simp, fun _ => ⟨2, 3, ?_, rfl, rfl⟩⟩
      decide

/-- Witness for claim C9: an image-mimetype media status dispatch and an
ordinary-chat send with mark-seen before submit. -/
theorem sendMessage_status_dispatch_witness :
    ("status@broadcast" : String) = "status@broadcast"
    ∧ jsTest "image" "image/png" = true
    ∧ sendMessageEval "status@broadcast"
        (SendContent.media "image/png" "QUJD") true
      = Except.ok [RemoteAction.sendImageStatus "data:image/png;base64,QUJD"]
    ∧ jsTest "image" "text/plain" = false
    ∧ jsTest "video" "text/plain" = false
    ∧ sendMessageEval "status@broadcast"
        (SendContent.media "text/plain" "QUJD") true
      = Except.error "Invalid type for status broadcast"
    ∧ ("123@c.us" : String) ≠ "status@broadcast"
    ∧ (∃ acts, sendMessageEval "123@c.us" (SendContent.str "hello") true
          = Except.ok acts
        ∧ RemoteAction.findChat "123@c.us" ∈ acts
        ∧ (true = true →
            ∃ i j : Nat, i < j
              ∧ acts.get? i = some (RemoteAction.markSeen "123@c.us")
              ∧ acts.get? j
                  = some (RemoteAction.submit "123@c.us"
                      (SendContent.str "hello")))) :=
  ⟨rfl, by decide,
   ((sendMessage_status_dispatch "status@broadcast"
      (SendContent.media "image/png" "QUJD") true).1 rfl).2.1
     "image/png" "QUJD" rfl (by decide),
   by decide, by decide,
   ((sendMessage_status_dispatch "status@broadcast"
      (SendContent.media "text/plain" "QUJD") true).1 rfl).2.2.2
     "text/plain" "QUJD" rfl (by decide) (by decide),
   by decide,
   (sendMessage_status_dispatch "123@c.us" (SendContent.str "hello") true).2
     (by decide)⟩

/-- Claim C1 (code defect): the `addParticipants` loop returns from
inside its first iteration, so for any non-empty input only the first
participant is attempted; at the concrete input
`["111@c.us", "222@c.us"]` the second id is never attempted and the
returned value covers only the first. -/
theorem addParticipants_first_only :
    (∀ (env : AddEnv) (options : AddOptions) (p : String)
        (rest : List String),
      (addParticipantsEval env options (p :: rest)).fst = [p])
    ∧ (addParticipantsEval
        { rpc := fun _ =>
            { code := 200, message := "The participant was added successfully",
              inviteCode := "", inviteCodeExp := 0 },
          findUserChat := fun _ => true, inviteSendOk := fun _ => true }
        {} ["111@c.us", "222@c.us"]).fst = ["111@c.us"]
    ∧ "222@c.us" ∉ (addParticipantsEval
        { rpc := fun _ =>
            { code := 200, message := "The participant was added successfully",
              inviteCode := "", inviteCodeExp := 0 },
          findUserChat := fun _ => true, inviteSendOk := fun _ => true }
        {} ["111@c.us", "222@c.us"]).fst :=
  ⟨fun _ _ _ _ => rfl, rfl, by decide⟩

/-- Claim C6 (code defect): the batch operations never read the `sleep`
option — the membership-request operations produce no delay action and
their behavior, like that of `addParticipants`, is unchanged by any
`sleep` value, including the sub-100ms interval `[250, 300]` that the
documentation says would be corrected to `[300, 400]`. -/
theorem sleep_option_ignored :
    (∀ ms : Int, GroupAction.sleepFor ms ∉
      approveMembershipEval "456@g.us"
        { requesterIds := some ["111@c.us", "222@c.us"],
          sleep := some (Sum.inr (250, 300)) })
    ∧ approveMembershipEval "456@g.us"
        { requesterIds := some ["111@c.us", "222@c.us"],
          sleep := some (Sum.inr (250, 300)) }
      = approveMembershipEval "456@g.us"
        { requesterIds := some ["111@c.us", "222@c.us"], sleep := none }
    ∧ (∀ (gid : String) (opts : MembershipOptions) (ms : Int),
        GroupAction.sleepFor ms ∉ approveMembershipEval gid opts
        ∧ GroupAction.sleepFor ms ∉ rejectMembershipEval gid opts)
    ∧ (∀ (env : AddEnv) (sl1 sl2 : Option (Sum Int (Int × Int)))
        (auto : Bool) (comm : String) (ids : List String),
        addParticipantsEval env ⟨sl1, auto, comm⟩ ids
          = addParticipantsEval env ⟨sl2, auto, comm⟩ ids) := by
  refine ⟨?_, rfl, ?_, ?_⟩
  · intro ms; simp [approveMembershipEval]
  · intro gid opts ms
    exact ⟨by simp [approveMembershipEval], by simp [rejectMembershipEval]⟩
  · intro env sl1 sl2 auto comm ids
    cases ids <;> rfl
